import Mathlib

/-!
Verification development for the native RAR-handling C library
(`src/rar_native.c`, `src/rar_native.h`).

The C code is a shim over libarchive: it exposes three operations,
`rar_extract`, `rar_list` and `rar_get_error_message`.  The pure parts
(the error-code table, the error classifier `map_archive_error`, path
construction, parent-directory computation, empty-password handling) are
embedded directly as Lean functions.  The effectful parts (the extraction
and listing loops) are embedded as functions over an explicit environment
describing libarchive's responses — the result of the existence check, of
directory creation, of `archive_read_open_filename`, and the stream of
results of `archive_read_next_header` together with each entry's header
fields and the per-entry outcomes of `archive_write_header`,
`copy_data` and `archive_write_finish_entry`.  The observable behaviour
(return code, files and directories written, listing-callback emissions,
passphrase registration) is returned as an ordered event trace.
-/

set_option autoImplicit false

namespace RarNative

/-! ### Error codes (src/rar_native.h, lines 34-43) -/

def RAR_SUCCESS : Int := 0
def RAR_FILE_NOT_FOUND : Int := 1
def RAR_OPEN_ERROR : Int := 2
def RAR_CREATE_ERROR : Int := 3
def RAR_MEMORY_ERROR : Int := 4
def RAR_BAD_ARCHIVE : Int := 5
def RAR_UNKNOWN_FORMAT : Int := 6
def RAR_BAD_PASSWORD : Int := 7
def RAR_BAD_DATA : Int := 8
def RAR_UNKNOWN_ERROR : Int := 9

/-- The errno values the classifier compares against (POSIX: ENOENT = 2). -/
def ENOENT : Int := 2

/-- The errno values the classifier compares against (POSIX: ENOMEM = 12). -/
def ENOMEM : Int := 12

/-! ### Static error-message table (src/rar_native.c, lines 39-50) -/

def error_messages : List String :=
  [ "Success",
    "RAR file not found",
    "Failed to open RAR archive",
    "Failed to create output file",
    "Memory allocation error",
    "Corrupt or invalid RAR archive",
    "Unknown archive format (not a valid RAR file)",
    "Incorrect password or password required",
    "Data error in archive (CRC check failed)",
    "Unknown error" ]

/-- Embedding of `rar_get_error_message` (src/rar_native.c, lines 53-58):
out-of-range codes index the table at `RAR_UNKNOWN_ERROR`, in-range codes
index it directly. -/
def rar_get_error_message (error_code : Int) : String :=
  if error_code < 0 ∨ error_code > RAR_UNKNOWN_ERROR then
    error_messages.getD RAR_UNKNOWN_ERROR.toNat ""
  else
    error_messages.getD error_code.toNat ""

/-! ### Substring search (C `strstr`) -/

/-- Whether `needle` occurs as a contiguous sublist of the character list. -/
def containsSub (needle : List Char) : List Char → Bool
  | [] => needle.isEmpty
  | c :: rest => needle.isPrefixOf (c :: rest) || containsSub needle rest

/-- C `strstr(hay, needle) != NULL`: `needle` occurs inside `hay`. -/
def strstr (hay needle : String) : Bool :=
  containsSub needle.data hay.data

/-! ### Error classification (src/rar_native.c, lines 146-177)

`map_archive_error` inspects `archive_errno` and the text of
`archive_error_string` (modelled as `Option String`; `none` is a NULL
error string).  The call to `error_cb` is a side channel that does not
influence the returned code and is omitted here. -/

def map_archive_error (err : Int) (err_str : Option String) : Int :=
  if err = ENOENT then RAR_FILE_NOT_FOUND
  else if err = ENOMEM then RAR_MEMORY_ERROR
  else
    match err_str with
    | some s =>
        if strstr s "password" || strstr s "Password" ||
           strstr s "encrypted" || strstr s "Encrypted" then RAR_BAD_PASSWORD
        else if strstr s "corrupt" || strstr s "Corrupt" ||
                strstr s "invalid" || strstr s "Invalid" then RAR_BAD_ARCHIVE
        else if strstr s "CRC" || strstr s "checksum" then RAR_BAD_DATA
        else if strstr s "format" || strstr s "Format" then RAR_UNKNOWN_FORMAT
        else RAR_UNKNOWN_ERROR
    | none => RAR_UNKNOWN_ERROR

/-! ### Path helpers -/

/-- Full output path built by `rar_extract` (src/rar_native.c, line 258):
`snprintf(full_path, len, "%s%c%s", dest_path, PATH_SEP, entry_path)` with
`PATH_SEP = '/'` on POSIX systems. -/
def full_output_path (dest_path entry_path : String) : String :=
  dest_path ++ "/" ++ entry_path

/-- Index of the last separator in a character list, if any. -/
def lastSlashIdx : List Char → Option Nat
  | [] => none
  | c :: cs =>
      match lastSlashIdx cs with
      | some i => some (i + 1)
      | none => if c = '/' then some 0 else none

/-- Embedding of `get_parent_directory` (src/rar_native.c, lines 111-126):
truncate at the last `/` unless it is absent or is the first character. -/
def get_parent_directory (path : String) : String :=
  match lastSlashIdx path.data with
  | some i => if i = 0 then path else ⟨path.data.take i⟩
  | none => path

/-- Split a character list at `/` separators. -/
def splitSlash (acc : List Char) : List Char → List String
  | [] => [⟨acc.reverse⟩]
  | c :: rest =>
      if c = '/' then (⟨acc.reverse⟩ : String) :: splitSlash [] rest
      else splitSlash (c :: acc) rest

/-- Path components ignoring empty segments (repeated or leading slashes). -/
def pathComponents (p : String) : List String :=
  (splitSlash [] p.data).filter (fun c => c ≠ "")

/-- Resolve `.` and `..` components the way the filesystem does when the
kernel walks the final path: `..` pops the previous component. -/
def resolveDots (comps : List String) : List String :=
  comps.foldl
    (fun acc c =>
      if c = "." then acc
      else if c = ".." then acc.dropLast
      else acc ++ [c])
    []

/-- Filesystem resolution of a path string, as a component list. -/
def resolvedPath (p : String) : List String :=
  resolveDots (pathComponents p)

/-- Whether a write to `full` lands inside the directory tree rooted at
`root` once the kernel resolves `..` components. -/
def staysWithin (root full : String) : Bool :=
  (resolvedPath root).isPrefixOf (resolvedPath full)

/-! ### Passphrase registration

Both `rar_extract` (lines 221-223) and `rar_list` (lines 348-350) run
`if (password && strlen(password) > 0) archive_read_add_passphrase(a, password);`
and use the password nowhere else. -/

def registered_passphrases (password : Option String) : List String :=
  match password with
  | some p => if p.length > 0 then [p] else []
  | none => []

/-! ### Observable events

An ordered trace of the filesystem and callback effects the shim performs,
in program order. `mkdirTree p` is a completed `create_directory_recursive(p)`
call (it creates `p` and all missing parents); `openAttempt` is the call to
`archive_read_open_filename`; `wroteHeader p` is a successful
`archive_write_header` for output path `p` (creates the file/directory on
disk); `wroteFile p` is a successful `copy_data` into `p`; `emitPath s` is a
`list_cb(s)` invocation; `addPassphrase s` is `archive_read_add_passphrase`. -/
inductive Event where
  | mkdirTree (path : String)
  | openAttempt
  | wroteHeader (path : String)
  | wroteFile (path : String)
  | emitPath (pathname : String)
  | addPassphrase (password : String)
  deriving DecidableEq, Repr

/-- The pathnames passed to the listing callback, in order. -/
def emittedPaths (evs : List Event) : List String :=
  evs.filterMap fun e =>
    match e with
    | Event.emitPath s => some s
    | _ => none

/-- The output paths of completed `copy_data` writes, in order. -/
def writtenFiles (evs : List Event) : List String :=
  evs.filterMap fun e =>
    match e with
    | Event.wroteFile p => some p
    | _ => none

/-- The output paths for which `archive_write_header` succeeded, in order. -/
def writtenHeaders (evs : List Event) : List String :=
  evs.filterMap fun e =>
    match e with
    | Event.wroteHeader p => some p
    | _ => none

/-! ### Environment: libarchive's responses

A libarchive call that can fail is modelled by `Option (Int × Option String)`:
`none` is `ARCHIVE_OK`, `some (e, s)` is a failure with `archive_errno = e`
and `archive_error_string = s`. -/

/-- Failure data of a libarchive call: errno and error string. -/
abbrev ArchiveFailure := Int × Option String

/-- Per-entry data: the header fields `rar_extract` reads
(`archive_entry_pathname`, `archive_entry_size`) and the outcomes of the
three per-entry libarchive calls it makes. -/
structure EntryStep where
  pathname : String
  size : Int
  writeHeader : Option ArchiveFailure
  copyData : Option ArchiveFailure
  finishEntry : Option ArchiveFailure
  deriving DecidableEq, Repr

/-- One result of `archive_read_next_header` in the extraction loop. -/
inductive HeaderResult where
  | ok (step : EntryStep)
  | eof
  | fatal (errno : Int) (err_str : Option String)
  deriving DecidableEq, Repr

/-- Embedding of the extraction loop of `rar_extract`
(src/rar_native.c, lines 248-302).  Each `ok` entry: build the full output
path, create its parent directory tree, write the header; if the entry size
is positive, copy the data; finish the entry; any libarchive failure maps
through `map_archive_error` and breaks out of the loop.  A `fatal` header
read maps through `map_archive_error` (post-loop check, lines 300-302); an
`eof` (or exhausted stream) leaves `RAR_SUCCESS`.  `malloc` of the path
buffer is assumed to succeed. -/
def extractLoop (dest_path : String) : List HeaderResult → Int × List Event
  | [] => (RAR_SUCCESS, [])
  | HeaderResult.eof :: _ => (RAR_SUCCESS, [])
  | HeaderResult.fatal e s :: _ => (map_archive_error e s, [])
  | HeaderResult.ok step :: rest =>
      let fp := full_output_path dest_path step.pathname
      let evs0 := [Event.mkdirTree (get_parent_directory fp)]
      match step.writeHeader with
      | some (e, s) => (map_archive_error e s, evs0)
      | none =>
          let evs1 := evs0 ++ [Event.wroteHeader fp]
          if step.size > 0 then
            match step.copyData with
            | some (e, s) => (map_archive_error e s, evs1)
            | none =>
                let evs2 := evs1 ++ [Event.wroteFile fp]
                match step.finishEntry with
                | some (e, s) => (map_archive_error e s, evs2)
                | none =>
                    let r := extractLoop dest_path rest
                    (r.1, evs2 ++ r.2)
          else
            match step.finishEntry with
            | some (e, s) => (map_archive_error e s, evs1)
            | none =>
                let r := extractLoop dest_path rest
                (r.1, evs1 ++ r.2)

/-- Environment for one `rar_extract` call: whether `fopen(rar_path)`
succeeds, whether `create_directory_recursive(dest_path)` succeeds, the
result of `archive_read_open_filename`, and the stream of header reads. -/
structure ExtractEnv where
  fileExists : Bool
  mkdirDestOk : Bool
  openResult : Option ArchiveFailure
  stream : List HeaderResult
  deriving DecidableEq, Repr

/-- Embedding of `rar_extract` (src/rar_native.c, lines 180-311): existence
check, destination-directory creation, reader/writer setup (allocation
assumed to succeed), passphrase registration, archive open, then the
extraction loop.  Returns the C return code and the event trace. -/
def rar_extract (dest_path : String) (password : Option String)
    (env : ExtractEnv) : Int × List Event :=
  if env.fileExists = false then (RAR_FILE_NOT_FOUND, [])
  else if env.mkdirDestOk = false then (RAR_CREATE_ERROR, [])
  else
    let evs0 := Event.mkdirTree dest_path ::
      (registered_passphrases password).map Event.addPassphrase
    match env.openResult with
    | some (e, s) => (map_archive_error e s, evs0 ++ [Event.openAttempt])
    | none =>
        let r := extractLoop dest_path env.stream
        (r.1, evs0 ++ [Event.openAttempt] ++ r.2)

/-- One result of `archive_read_next_header` in the listing loop: an entry
with its (possibly NULL) pathname and the ignored outcome of
`archive_read_data_skip`, end of archive, or a fatal read error. -/
inductive ListHeaderResult where
  | ok (pathname : Option String) (skipResult : Option ArchiveFailure)
  | eof
  | fatal (errno : Int) (err_str : Option String)
  deriving DecidableEq, Repr

/-- Embedding of the listing loop of `rar_list` (src/rar_native.c, lines
361-375).  Each `ok` entry emits its pathname when it is non-NULL and a
callback was supplied; the return value of `archive_read_data_skip` is
discarded, exactly as in the C code (a fatal skip error surfaces as the
next header read's `fatal` result, since libarchive fails subsequent calls
on the handle).  A `fatal` header read maps through `map_archive_error`
(post-loop check, lines 372-374). -/
def listLoop (hasListCb : Bool) : List ListHeaderResult → Int × List Event
  | [] => (RAR_SUCCESS, [])
  | ListHeaderResult.eof :: _ => (RAR_SUCCESS, [])
  | ListHeaderResult.fatal e s :: _ => (map_archive_error e s, [])
  | ListHeaderResult.ok p _ :: rest =>
      let r := listLoop hasListCb rest
      match p with
      | some s => (r.1, (if hasListCb then [Event.emitPath s] else []) ++ r.2)
      | none => r

/-- Environment for one `rar_list` call. -/
structure ListEnv where
  fileExists : Bool
  openResult : Option ArchiveFailure
  stream : List ListHeaderResult
  deriving DecidableEq, Repr

/-- Embedding of `rar_list` (src/rar_native.c, lines 314-381): existence
check, reader setup (allocation assumed to succeed), passphrase
registration, archive open, then the listing loop. -/
def rar_list (password : Option String) (hasListCb : Bool)
    (env : ListEnv) : Int × List Event :=
  if env.fileExists = false then (RAR_FILE_NOT_FOUND, [])
  else
    let evs0 := (registered_passphrases password).map Event.addPassphrase
    match env.openResult with
    | some (e, s) => (map_archive_error e s, evs0 ++ [Event.openAttempt])
    | none =>
        let r := listLoop hasListCb env.stream
        (r.1, evs0 ++ [Event.openAttempt] ++ r.2)

/-! ### Helper lemmas -/

/-- The classifier returns one of the seven failure codes, never
`RAR_SUCCESS`. -/
theorem map_archive_error_ne_success (e : Int) (s : Option String) :
    map_archive_error e s ≠ RAR_SUCCESS := by
  unfold map_archive_error
  repeat' split
  all_goals decide

/-- Every in-range table lookup yields an element of the table. -/
theorem error_messages_getD_mem :
    ∀ n : Nat, n < 10 → error_messages.getD n "" ∈ error_messages := by
  decide

/-! ### Claim C4 -/

/-- C4: `rar_get_error_message` is a pure, total, static mapping from error
codes to messages: every integer input yields a message from the static
table, the ten defined error kinds (codes 0-9) each have their own distinct
message, and every input outside the defined range (negative or greater
than the largest defined code `RAR_UNKNOWN_ERROR`) maps to the generic
"Unknown error" message. -/
theorem rar_get_error_message_total_static :
    (∀ code : Int, code < 0 ∨ code > RAR_UNKNOWN_ERROR →
        rar_get_error_message code = "Unknown error") ∧
    error_messages.Nodup ∧
    error_messages.length = 10 ∧
    (∀ code : Int, 0 ≤ code → code ≤ RAR_UNKNOWN_ERROR →
        rar_get_error_message code = error_messages.getD code.toNat "") ∧
    (∀ code : Int, rar_get_error_message code ∈ error_messages) := by
  refine ⟨?_, by decide, by decide, ?_, ?_⟩
  · intro code h
    rw [rar_get_error_message, if_pos h]
    decide
  · intro code h0 h9
    rw [rar_get_error_message, if_neg]
    simp only [RAR_UNKNOWN_ERROR] at h9 ⊢
    omega
  · intro code
    rw [rar_get_error_message]
    split
    · decide
    · rename_i h
      rw [RAR_UNKNOWN_ERROR] at h
      push_neg at h
      exact error_messages_getD_mem code.toNat (by omega)

/-- Witness for C4 at concrete inputs: two out-of-range codes map to the
generic message, and the defined code `RAR_BAD_PASSWORD` has its table
message. -/
theorem rar_get_error_message_total_static_witness :
    rar_get_error_message (-3) = "Unknown error" ∧
    rar_get_error_message 42 = "Unknown error" ∧
    rar_get_error_message RAR_BAD_PASSWORD =
      "Incorrect password or password required" :=
  ⟨rar_get_error_message_total_static.1 (-3) (Or.inl (by decide)),
   rar_get_error_message_total_static.1 42 (Or.inr (by decide)),
   by decide⟩

/-! ### Claim C3 -/

/-- C3 counterexample: the claim that a missing password and a wrong
password fail with two distinct error kinds, distinguished structurally
and never by error-message text, is false.  A missing-password failure and
a wrong-password failure map to the same single code `RAR_BAD_PASSWORD`
(whose message covers both: "Incorrect password or password required"),
and the classification is substring matching on the error text: the same
failure reworded without the literal substrings maps to
`RAR_UNKNOWN_ERROR` instead. -/
theorem password_error_single_kind_cex :
    map_archive_error 0 (some "Encrypted file: no password given") =
      RAR_BAD_PASSWORD ∧
    map_archive_error 0 (some "Incorrect password") = RAR_BAD_PASSWORD ∧
    rar_get_error_message RAR_BAD_PASSWORD =
      "Incorrect password or password required" ∧
    map_archive_error 0 (some "no pass phrase given") = RAR_UNKNOWN_ERROR := by
  decide

/-- C3 amended: missing-password and wrong-password failures are not
distinguished; any libarchive failure (errno neither ENOENT nor ENOMEM)
whose error text contains one of the substrings "password", "Password",
"encrypted", "Encrypted" is classified as the single kind
`RAR_BAD_PASSWORD`, whose user-facing message is the combined
"Incorrect password or password required". -/
theorem password_failures_text_classified (e : Int) (s : String)
    (h1 : e ≠ ENOENT) (h2 : e ≠ ENOMEM)
    (h : (strstr s "password" || strstr s "Password" ||
          strstr s "encrypted" || strstr s "Encrypted") = true) :
    map_archive_error e (some s) = RAR_BAD_PASSWORD ∧
    rar_get_error_message (map_archive_error e (some s)) =
      "Incorrect password or password required" := by
  have hm : map_archive_error e (some s) = RAR_BAD_PASSWORD := by
    simp [map_archive_error, h1, h2, h]
  exact ⟨hm, by rw [hm]; decide⟩

/-- Witness for C3's amended theorem at a concrete wrong-password error
string. -/
theorem password_failures_text_classified_witness :
    map_archive_error 0 (some "Incorrect password") = RAR_BAD_PASSWORD ∧
    rar_get_error_message (map_archive_error 0 (some "Incorrect password")) =
      "Incorrect password or password required" :=
  password_failures_text_classified 0 "Incorrect password"
    (by decide) (by decide) (by decide)

/-! ### Claim C1 -/

/-- C1: the claim that entry paths escaping the destination root via
parent-directory components are rejected with `PathEscapesDestination`
and that no file is ever written outside the destination root is false of
the code.  Extracting an archive whose single entry has pathname
`"../../etc/passwd"` into destination root `"/tmp/out"` returns
`RAR_SUCCESS` and performs a data write to
`"/tmp/out/../../etc/passwd"`, which the filesystem resolves to
`/etc/passwd` — outside the destination root.  `rar_extract` builds the
output path by plain concatenation (src/rar_native.c, line 258) with no
escape check, and no `PathEscapesDestination` error code exists in the
API. -/
theorem rar_extract_writes_outside_destination :
    (rar_extract "/tmp/out" none (ExtractEnv.mk true true none
        [HeaderResult.ok (EntryStep.mk "../../etc/passwd" 5 none none none),
         HeaderResult.eof])).1 = RAR_SUCCESS ∧
    Event.wroteFile (full_output_path "/tmp/out" "../../etc/passwd") ∈
      (rar_extract "/tmp/out" none (ExtractEnv.mk true true none
        [HeaderResult.ok (EntryStep.mk "../../etc/passwd" 5 none none none),
         HeaderResult.eof])).2 ∧
    staysWithin "/tmp/out" (full_output_path "/tmp/out" "../../etc/passwd") =
      false ∧
    resolvedPath (full_output_path "/tmp/out" "../../etc/passwd") =
      ["etc", "passwd"] := by
  decide

/-! ### Claim C2 -/

/-- An entry for which all three per-entry libarchive calls succeed. -/
def entryOk (s : EntryStep) : Prop :=
  s.writeHeader = none ∧ s.copyData = none ∧ s.finishEntry = none

instance (s : EntryStep) : Decidable (entryOk s) := by
  unfold entryOk
  infer_instance

/-- The trace a fully successful entry contributes in the extraction loop. -/
def successEvents (dest_path : String) (s : EntryStep) : List Event :=
  let fp := full_output_path dest_path s.pathname
  [Event.mkdirTree (get_parent_directory fp), Event.wroteHeader fp] ++
    (if s.size > 0 then [Event.wroteFile fp] else [])

/-- Concatenated traces of a run of fully successful entries. -/
def entriesEvents (dest_path : String) : List EntryStep → List Event
  | [] => []
  | s :: rest => successEvents dest_path s ++ entriesEvents dest_path rest

/-- A fully successful entry contributes its events and the loop continues. -/
theorem extractLoop_cons_ok (dest_path : String) (s : EntryStep)
    (rest : List HeaderResult) (h : entryOk s) :
    extractLoop dest_path (HeaderResult.ok s :: rest) =
      ((extractLoop dest_path rest).1,
        successEvents dest_path s ++ (extractLoop dest_path rest).2) := by
  obtain ⟨h1, h2, h3⟩ := h
  by_cases hs : s.size > 0 <;>
    simp [extractLoop, successEvents, h1, h2, h3, hs]

/-- Witness for `extractLoop_cons_ok` at a concrete entry. -/
theorem extractLoop_cons_ok_witness :
    extractLoop "/d" [HeaderResult.ok (EntryStep.mk "a.txt" 3 none none none)] =
      ((extractLoop "/d" ([] : List HeaderResult)).1,
        successEvents "/d" (EntryStep.mk "a.txt" 3 none none none) ++
          (extractLoop "/d" ([] : List HeaderResult)).2) :=
  extractLoop_cons_ok "/d" (EntryStep.mk "a.txt" 3 none none none) []
    (by decide)

/-- C2 counterexample: the claim that a per-entry failure is recorded and
extraction continues so that sibling entries still succeed is false.  In
a two-entry archive whose first entry fails its data copy with a CRC
error, `rar_extract` returns the single code `RAR_BAD_DATA`, no data was
written for any entry, and the second entry is never touched: neither its
header nor its data is written. -/
theorem rar_extract_aborts_on_first_failure_cex :
    (rar_extract "/d" none (ExtractEnv.mk true true none
        [HeaderResult.ok (EntryStep.mk "a.txt" 3 none
            (some (0, some "CRC error")) none),
         HeaderResult.ok (EntryStep.mk "b.txt" 3 none none none),
         HeaderResult.eof])).1 = RAR_BAD_DATA ∧
    writtenFiles (rar_extract "/d" none (ExtractEnv.mk true true none
        [HeaderResult.ok (EntryStep.mk "a.txt" 3 none
            (some (0, some "CRC error")) none),
         HeaderResult.ok (EntryStep.mk "b.txt" 3 none none none),
         HeaderResult.eof])).2 = [] ∧
    Event.wroteHeader (full_output_path "/d" "b.txt") ∉
      (rar_extract "/d" none (ExtractEnv.mk true true none
        [HeaderResult.ok (EntryStep.mk "a.txt" 3 none
            (some (0, some "CRC error")) none),
         HeaderResult.ok (EntryStep.mk "b.txt" 3 none none none),
         HeaderResult.eof])).2 ∧
    Event.wroteFile (full_output_path "/d" "b.txt") ∉
      (rar_extract "/d" none (ExtractEnv.mk true true none
        [HeaderResult.ok (EntryStep.mk "a.txt" 3 none
            (some (0, some "CRC error")) none),
         HeaderResult.ok (EntryStep.mk "b.txt" 3 none none none),
         HeaderResult.eof])).2 := by
  decide

/-- C2 amended: when an entry fails during extraction (here: its data copy
fails, as a checksum mismatch does), `rar_extract` stops at that entry.
It returns that entry's mapped error code as the single overall result
(there is no succeeded/failed summary and no continue-or-abort
configuration option), entries extracted before the failure keep their
completed writes, and no event of any later entry occurs: the trace ends
with the failing entry's partial work. -/
theorem rar_extract_stops_at_failing_entry (dest_path : String)
    (pw : Option String) (pre : List EntryStep) (bad : EntryStep)
    (rest : List HeaderResult) (e : Int) (s : Option String)
    (hpre : ∀ x ∈ pre, entryOk x)
    (hwh : bad.writeHeader = none) (hsz : bad.size > 0)
    (hcd : bad.copyData = some (e, s)) :
    rar_extract dest_path pw (ExtractEnv.mk true true none
        (pre.map HeaderResult.ok ++ HeaderResult.ok bad :: rest)) =
      (map_archive_error e s,
        Event.mkdirTree dest_path ::
          (registered_passphrases pw).map Event.addPassphrase ++
          [Event.openAttempt] ++
          entriesEvents dest_path pre ++
          [Event.mkdirTree
              (get_parent_directory (full_output_path dest_path bad.pathname)),
           Event.wroteHeader (full_output_path dest_path bad.pathname)]) := by
  have hloop : ∀ pre : List EntryStep, (∀ x ∈ pre, entryOk x) →
      extractLoop dest_path (pre.map HeaderResult.ok ++
          HeaderResult.ok bad :: rest) =
        (map_archive_error e s,
          entriesEvents dest_path pre ++
          [Event.mkdirTree
              (get_parent_directory (full_output_path dest_path bad.pathname)),
           Event.wroteHeader (full_output_path dest_path bad.pathname)]) := by
    intro pre hpre
    induction pre with
    | nil =>
        simp [extractLoop, entriesEvents, hwh, hcd, hsz]
    | cons p ps ih =>
        have hp : entryOk p := hpre p (by simp)
        have hps : ∀ x ∈ ps, entryOk x := fun x hx => hpre x (by simp [hx])
        rw [List.map_cons, List.cons_append, extractLoop_cons_ok _ _ _ hp,
          ih hps]
        simp [entriesEvents]
  rw [rar_extract]
  simp only [Bool.true_eq_false, if_false, hloop pre hpre]
  simp

/-- Witness for C2's amended theorem: one successful entry followed by an
entry whose data copy fails with a CRC error. -/
theorem rar_extract_stops_at_failing_entry_witness :
    rar_extract "/d" none (ExtractEnv.mk true true none
        ([EntryStep.mk "a.txt" 1 none none none].map HeaderResult.ok ++
          HeaderResult.ok (EntryStep.mk "b.txt" 2 none
            (some (0, some "CRC error")) none) :: [HeaderResult.eof])) =
      (map_archive_error 0 (some "CRC error"),
        Event.mkdirTree "/d" ::
          (registered_passphrases none).map Event.addPassphrase ++
          [Event.openAttempt] ++
          entriesEvents "/d" [EntryStep.mk "a.txt" 1 none none none] ++
          [Event.mkdirTree
              (get_parent_directory (full_output_path "/d" "b.txt")),
           Event.wroteHeader (full_output_path "/d" "b.txt")]) :=
  rar_extract_stops_at_failing_entry "/d" none
    [EntryStep.mk "a.txt" 1 none none none]
    (EntryStep.mk "b.txt" 2 none (some (0, some "CRC error")) none)
    [HeaderResult.eof] 0 (some "CRC error")
    (by decide) rfl (by decide) rfl

/-! ### Trace-projection lemmas -/

@[simp] theorem emittedPaths_nil : emittedPaths [] = [] := rfl

@[simp] theorem emittedPaths_append (a b : List Event) :
    emittedPaths (a ++ b) = emittedPaths a ++ emittedPaths b := by
  simp [emittedPaths]

@[simp] theorem emittedPaths_map_emitPath (l : List String) :
    emittedPaths (l.map Event.emitPath) = l := by
  induction l with
  | nil => rfl
  | cons x xs ih => simpa [emittedPaths] using ih

@[simp] theorem emittedPaths_map_addPassphrase (l : List String) :
    emittedPaths (l.map Event.addPassphrase) = [] := by
  induction l with
  | nil => rfl
  | cons x xs ih => simp [emittedPaths] at ih ⊢

@[simp] theorem emittedPaths_openAttempt_cons (l : List Event) :
    emittedPaths (Event.openAttempt :: l) = emittedPaths l := rfl

@[simp] theorem emittedPaths_mkdirTree_cons (p : String) (l : List Event) :
    emittedPaths (Event.mkdirTree p :: l) = emittedPaths l := rfl

@[simp] theorem writtenFiles_nil : writtenFiles [] = [] := rfl

@[simp] theorem writtenFiles_append (a b : List Event) :
    writtenFiles (a ++ b) = writtenFiles a ++ writtenFiles b := by
  simp [writtenFiles]

@[simp] theorem writtenFiles_map_addPassphrase (l : List String) :
    writtenFiles (l.map Event.addPassphrase) = [] := by
  induction l with
  | nil => rfl
  | cons x xs ih => simp [writtenFiles] at ih ⊢

@[simp] theorem writtenFiles_openAttempt_cons (l : List Event) :
    writtenFiles (Event.openAttempt :: l) = writtenFiles l := rfl

@[simp] theorem writtenFiles_mkdirTree_cons (p : String) (l : List Event) :
    writtenFiles (Event.mkdirTree p :: l) = writtenFiles l := rfl

@[simp] theorem writtenHeaders_nil : writtenHeaders [] = [] := rfl

@[simp] theorem writtenHeaders_append (a b : List Event) :
    writtenHeaders (a ++ b) = writtenHeaders a ++ writtenHeaders b := by
  simp [writtenHeaders]

@[simp] theorem writtenHeaders_map_addPassphrase (l : List String) :
    writtenHeaders (l.map Event.addPassphrase) = [] := by
  induction l with
  | nil => rfl
  | cons x xs ih => simp [writtenHeaders] at ih ⊢

@[simp] theorem writtenHeaders_openAttempt_cons (l : List Event) :
    writtenHeaders (Event.openAttempt :: l) = writtenHeaders l := rfl

@[simp] theorem writtenHeaders_mkdirTree_cons (p : String) (l : List Event) :
    writtenHeaders (Event.mkdirTree p :: l) = writtenHeaders l := rfl

/-! ### Claim C5 -/

/-- The listing loop over a run of readable entries followed by a fatal
header read: every entry before the failure point is emitted, the failure
maps through `map_archive_error`, and nothing after the failure point is
touched. -/
theorem listLoop_prefix_fatal
    (pre : List (Option String × Option ArchiveFailure)) (e : Int)
    (s : Option String) (rest : List ListHeaderResult) :
    listLoop true (pre.map (fun x => ListHeaderResult.ok x.1 x.2) ++
        ListHeaderResult.fatal e s :: rest) =
      (map_archive_error e s, (pre.filterMap Prod.fst).map Event.emitPath) := by
  induction pre with
  | nil => simp [listLoop]
  | cons p ps ih =>
      obtain ⟨op, sk⟩ := p
      cases op <;> simp [listLoop, ih]

/-- C5: when an error is encountered while walking entry headers (or while
skipping entry data — the shim discards `archive_read_data_skip`'s return
value, and a fatal skip error surfaces as the next header read failing),
`rar_list` stops enumeration at that point and reports a non-success
error code, while every entry already emitted to the listing callback
before the error remains an emitted record, in order. -/
theorem rar_list_stops_at_error_keeps_emitted (pw : Option String)
    (pre : List (Option String × Option ArchiveFailure)) (e : Int)
    (s : Option String) (rest : List ListHeaderResult) :
    (rar_list pw true (ListEnv.mk true none
        (pre.map (fun x => ListHeaderResult.ok x.1 x.2) ++
          ListHeaderResult.fatal e s :: rest))).1 = map_archive_error e s ∧
    (rar_list pw true (ListEnv.mk true none
        (pre.map (fun x => ListHeaderResult.ok x.1 x.2) ++
          ListHeaderResult.fatal e s :: rest))).1 ≠ RAR_SUCCESS ∧
    emittedPaths (rar_list pw true (ListEnv.mk true none
        (pre.map (fun x => ListHeaderResult.ok x.1 x.2) ++
          ListHeaderResult.fatal e s :: rest))).2 =
      pre.filterMap Prod.fst := by
  refine ⟨?_, ?_, ?_⟩ <;>
    simp [rar_list, listLoop_prefix_fatal, map_archive_error_ne_success]

/-! ### Claim C6 -/

/-- The listing loop over a run of entries with non-NULL pathnames followed
by end-of-archive emits every pathname in order and succeeds. -/
theorem listLoop_all_ok_eof (names : List String) :
    listLoop true (names.map (fun n => ListHeaderResult.ok (some n) none) ++
        [ListHeaderResult.eof]) =
      (RAR_SUCCESS, names.map Event.emitPath) := by
  induction names with
  | nil => simp [listLoop]
  | cons n ns ih => simp [listLoop, ih]

/-- C6: for a valid archive with `N` entries — every header read yields an
entry with a pathname, then end-of-archive — `rar_list` emits exactly `N`
records to the listing callback, one per entry, in the archive's table
order, and returns `RAR_SUCCESS`. -/
theorem rar_list_emits_all_entries_in_order (pw : Option String)
    (names : List String) :
    (rar_list pw true (ListEnv.mk true none
        (names.map (fun n => ListHeaderResult.ok (some n) none) ++
          [ListHeaderResult.eof]))).1 = RAR_SUCCESS ∧
    emittedPaths (rar_list pw true (ListEnv.mk true none
        (names.map (fun n => ListHeaderResult.ok (some n) none) ++
          [ListHeaderResult.eof]))).2 = names ∧
    (emittedPaths (rar_list pw true (ListEnv.mk true none
        (names.map (fun n => ListHeaderResult.ok (some n) none) ++
          [ListHeaderResult.eof]))).2).length = names.length := by
  refine ⟨?_, ?_, ?_⟩ <;> simp [rar_list, listLoop_all_ok_eof]

/-! ### Claim C7 -/

/-- C7: a valid archive containing zero entries (the first header read is
end-of-archive) is not an error: `rar_list` returns `RAR_SUCCESS` with no
emitted records, and `rar_extract` returns `RAR_SUCCESS` having written no
file headers and no file data. -/
theorem zero_entry_archive_succeeds (dest_path : String) (pw : Option String)
    (cb : Bool) :
    rar_list pw cb (ListEnv.mk true none [ListHeaderResult.eof]) =
      (RAR_SUCCESS,
        (registered_passphrases pw).map Event.addPassphrase ++
          [Event.openAttempt]) ∧
    emittedPaths (rar_list pw cb
        (ListEnv.mk true none [ListHeaderResult.eof])).2 = [] ∧
    rar_extract dest_path pw (ExtractEnv.mk true true none [HeaderResult.eof]) =
      (RAR_SUCCESS,
        Event.mkdirTree dest_path ::
          (registered_passphrases pw).map Event.addPassphrase ++
          [Event.openAttempt]) ∧
    writtenFiles (rar_extract dest_path pw
        (ExtractEnv.mk true true none [HeaderResult.eof])).2 = [] ∧
    writtenHeaders (rar_extract dest_path pw
        (ExtractEnv.mk true true none [HeaderResult.eof])).2 = [] := by
  refine ⟨?_, ?_, ?_, ?_, ?_⟩ <;>
    simp [rar_list, rar_extract, listLoop, extractLoop]

/-! ### Claim C8 -/

/-- C8: when opening the archive fails, both operations abort immediately
with the mapped open-failure error and build no partial archive state: the
result is the mapped error (never `RAR_SUCCESS`), `rar_list` emits no
entry to the listing callback, and `rar_extract` writes no file header
and no file data — no entry extraction is attempted. -/
theorem open_failure_aborts_immediately (dest_path : String)
    (pw : Option String) (cb : Bool) (e : Int) (s : Option String)
    (estream : List HeaderResult) (lstream : List ListHeaderResult) :
    (rar_extract dest_path pw
        (ExtractEnv.mk true true (some (e, s)) estream)).1 =
      map_archive_error e s ∧
    (rar_extract dest_path pw
        (ExtractEnv.mk true true (some (e, s)) estream)).1 ≠ RAR_SUCCESS ∧
    writtenFiles (rar_extract dest_path pw
        (ExtractEnv.mk true true (some (e, s)) estream)).2 = [] ∧
    writtenHeaders (rar_extract dest_path pw
        (ExtractEnv.mk true true (some (e, s)) estream)).2 = [] ∧
    (rar_list pw cb (ListEnv.mk true (some (e, s)) lstream)).1 =
      map_archive_error e s ∧
    emittedPaths (rar_list pw cb
        (ListEnv.mk true (some (e, s)) lstream)).2 = [] := by
  refine ⟨?_, ?_, ?_, ?_, ?_, ?_⟩ <;>
    simp [rar_list, rar_extract, map_archive_error_ne_success]

/-! ### Claim C9 -/

/-- C9: an empty-string password is treated identically to a NULL password
in both operations: the passphrase-registration guard
`password && strlen(password) > 0` registers nothing for either, so the
whole observable behaviour of `rar_extract` and `rar_list` — return code
and event trace, for every environment — is the same for `some ""` and
`none`. -/
theorem empty_password_same_as_null (dest_path : String) (cb : Bool)
    (eenv : ExtractEnv) (lenv : ListEnv) :
    registered_passphrases (some "") = registered_passphrases none ∧
    rar_extract dest_path (some "") eenv = rar_extract dest_path none eenv ∧
    rar_list (some "") cb lenv = rar_list none cb lenv := by
  have hreg : registered_passphrases (some "") = registered_passphrases none :=
    rfl
  refine ⟨hreg, ?_, ?_⟩ <;> simp [rar_extract, rar_list, hreg]

/-! ### Claim C10 -/

/-- C10: when the archive file exists, `rar_extract` creates the
destination directory tree (`create_directory_recursive(dest_path)`,
which creates all missing parents) before it attempts to open the
archive; so when the open then fails (corrupt or unrecognized archive),
the call returns the mapped open error but the destination directory has
already been created: the trace starts with the directory creation and
still contains it, followed by the open attempt. -/
theorem dest_dir_created_before_open (dest_path : String) (pw : Option String)
    (e : Int) (s : Option String) (stream : List HeaderResult) :
    rar_extract dest_path pw (ExtractEnv.mk true true (some (e, s)) stream) =
      (map_archive_error e s,
        Event.mkdirTree dest_path ::
          (registered_passphrases pw).map Event.addPassphrase ++
          [Event.openAttempt]) ∧
    (rar_extract dest_path pw
        (ExtractEnv.mk true true (some (e, s)) stream)).2.head? =
      some (Event.mkdirTree dest_path) ∧
    Event.openAttempt ∈ (rar_extract dest_path pw
        (ExtractEnv.mk true true (some (e, s)) stream)).2 := by
  refine ⟨?_, ?_, ?_⟩ <;> simp [rar_extract]

end RarNative
